import Mathlib

/-!
Shallow embedding of the bookstore backend model layer
(`be/model/user.py` and `be/model/seller.py`).

The MongoDB connection is modelled as an explicit state (`DB`) holding the
four collections the two files touch (`user`, `store`, `user_store`,
`order_history`).  Every driver primitive (`find_one`, `insert_one`,
`update_one`, `delete_one`) is routed through `prim`, which consumes one
event from an interference script carried in the state: an event can let the
call proceed, make it raise `PyMongoError` with a given message, or model a
concurrent writer deleting a user record just before the call runs.  The
latter two make the `528` catch branches and the zero-row-update branches of
the source reachable in the embedding.

The external `jwt` library is modelled abstractly by the structured type
`Token`: encoding is injective on (payload, key) — as HS256 JWT strings are —
so Python's byte-equality of token strings becomes structural equality of
`Token`, and decoding with a wrong key is the `InvalidSignatureError` case.
-/

/-- JWT credential as a structured value: the payload written by `jwt_encode`
(`user_id`, `terminal`, `timestamp`) together with the symmetric key it was
signed with.  `timestamp` is an `Option` so that a token whose payload lacks
the field is expressible (the `ts is None` branch of `__check_token`). -/
structure Token where
  user_id : String
  terminal : String
  timestamp : Option Int
  key : String
deriving DecidableEq, Repr

/-- `jwt_encode` of be/model/user.py: payload `{user_id, terminal, timestamp
= now}` signed with HS256 under `key = user_id`.  Time is passed explicitly
in place of `time.time()`. -/
def jwt_encode (user_id terminal : String) (now : Int) : Token :=
  { user_id := user_id, terminal := terminal, timestamp := some now, key := user_id }

/-- `jwt_decode` of be/model/user.py: verify with `key = user_id` and return
the payload; a wrong key is the `InvalidSignatureError` outcome. -/
def jwt_decode (tok : Token) (user_id : String) : Except String Token :=
  if tok.key = user_id then .ok tok else .error "InvalidSignatureError"

/-- Fresh terminal label, `"terminal_{}".format(str(time.time()))`. -/
def mkTerminal (now : Int) : String :=
  "terminal_" ++ toString now

/-- A document of the `user` collection. -/
structure UserDoc where
  user_id : String
  password : String
  balance : Int
  token : Token
  terminal : String
deriving DecidableEq, Repr

/-- A book listing, i.e. a document of the `store` collection. -/
structure BookDoc where
  store_id : String
  book_id : String
  book_info : String
  stock_level : Int
deriving DecidableEq, Repr

/-- A document of the `user_store` collection (store ownership). -/
structure StoreDoc where
  store_id : String
  user_id : String
deriving DecidableEq, Repr

/-- A document of the `order_history` collection; only the fields the
shipped code reads are modelled. -/
structure OrderDoc where
  order_id : String
  status : String
deriving DecidableEq, Repr

/-- One interference event per driver call: proceed normally, raise
`PyMongoError msg`, or have a concurrent writer delete the first `user`
document with the given id just before the call runs. -/
inductive Ev where
  | ok
  | raise (msg : String)
  | vanish (uid : String)
deriving DecidableEq, Repr

/-- The MongoDB state: the four collections plus the interference script. -/
structure DB where
  users : List UserDoc
  store : List BookDoc
  user_store : List StoreDoc
  order_history : List OrderDoc
  script : List Ev
deriving DecidableEq, Repr

/-- Update the first element satisfying `p` (the `update_one` semantics). -/
def updateFirst (p : α → Bool) (f : α → α) : List α → List α
  | [] => []
  | x :: xs => if p x then f x :: xs else x :: updateFirst p f xs

/-- Outcome of a driver call or of an un-caught block: a value and the new
state, or a raised `PyMongoError` message together with the state at the
point of the raise. -/
inductive PRes (α : Type) where
  | ok (a : α) (db : DB)
  | err (msg : String) (db : DB)
deriving DecidableEq, Repr

/-- Concurrent deletion of a user record (`delete_one` issued by another
client). -/
def removeUser (uid : String) (db : DB) : DB :=
  { db with users := db.users.eraseP (fun u => u.user_id == uid) }

/-- Run one driver primitive `f` against the state, consuming one event of
the interference script (an empty script behaves as an endless `Ev.ok`). -/
def prim (f : DB → α × DB) (db : DB) : PRes α :=
  match db.script with
  | [] => .ok (f db).1 (f db).2
  | Ev.ok :: rest => .ok (f { db with script := rest }).1 (f { db with script := rest }).2
  | Ev.raise m :: rest => .err m { db with script := rest }
  | Ev.vanish u :: rest =>
      .ok (f (removeUser u { db with script := rest })).1
        (f (removeUser u { db with script := rest })).2

/-- `self.conn['user'].find_one({'user_id': user_id})`. -/
def findUser (uid : String) : DB → PRes (Option UserDoc) :=
  prim (fun db => (db.users.find? (fun u => u.user_id == uid), db))

/-- `self.conn['user'].insert_one(user_doc)`. -/
def insertUser (u : UserDoc) : DB → PRes Unit :=
  prim (fun db => ((), { db with users := db.users ++ [u] }))

/-- The `$set` document `{'token': tok, 'terminal': term}` applied to a user
document. -/
def setTokTerm (tok : Token) (term : String) (x : UserDoc) : UserDoc :=
  { x with token := tok, terminal := term }

/-- The `$set` document `{'password': pwd, 'token': tok, 'terminal': term}`
applied to a user document. -/
def setPwdTokTerm (pwd : String) (tok : Token) (term : String) (x : UserDoc) : UserDoc :=
  { x with password := pwd, token := tok, terminal := term }

/-- `update_one({'user_id': uid}, {'$set': {'token': tok, 'terminal':
term}})`; returns `matched_count`. -/
def updUserTokTerm (uid : String) (tok : Token) (term : String) : DB → PRes Nat :=
  prim (fun db =>
    ((if db.users.any (fun u => u.user_id == uid) then 1 else 0),
     { db with users := (updateFirst (fun u => u.user_id == uid)
         (setTokTerm tok term) db.users) }))

/-- `update_one({'user_id': uid}, {'$set': {'password': pwd, 'token': tok,
'terminal': term}})`; returns `matched_count`. -/
def updUserPwdTokTerm (uid pwd : String) (tok : Token) (term : String) : DB → PRes Nat :=
  prim (fun db =>
    ((if db.users.any (fun u => u.user_id == uid) then 1 else 0),
     { db with users := (updateFirst (fun u => u.user_id == uid)
         (setPwdTokTerm pwd tok term) db.users) }))

/-- `self.conn['user'].delete_one({'user_id': uid})`; returns
`deleted_count`. -/
def deleteUser (uid : String) : DB → PRes Nat :=
  prim (fun db =>
    ((if db.users.any (fun u => u.user_id == uid) then 1 else 0),
     { db with users := db.users.eraseP (fun u => u.user_id == uid) }))

/-- `self.conn['store'].insert_one(book_doc)`. -/
def insertBook (b : BookDoc) : DB → PRes Unit :=
  prim (fun db => ((), { db with store := db.store ++ [b] }))

/-- `self.conn['store'].update_one({'store_id': sid, 'book_id': bid},
{'$inc': {'stock_level': d}})`. -/
def incStock (sid bid : String) (d : Int) : DB → PRes Unit :=
  prim (fun db =>
    ((), { db with store := (updateFirst
        (fun b => b.store_id == sid && b.book_id == bid)
        (fun b => { b with stock_level := b.stock_level + d }) db.store) }))

/-- `self.conn['user_store'].insert_one(user_store_doc)`. -/
def insertUserStore (s : StoreDoc) : DB → PRes Unit :=
  prim (fun db => ((), { db with user_store := db.user_store ++ [s] }))

/-- `self.conn['order_history'].find_one({'order_id': oid})`. -/
def findOrder (oid : String) : DB → PRes (Option OrderDoc) :=
  prim (fun db => (db.order_history.find? (fun o => o.order_id == oid), db))

/-- `self.conn['order_history'].update_one({'order_id': oid}, {'$set':
{'status': st}})`. -/
def updOrderStatus (oid st : String) : DB → PRes Unit :=
  prim (fun db =>
    ((), { db with order_history := (updateFirst (fun o => o.order_id == oid)
        (fun o => { o with status := st }) db.order_history) }))

/-- Modelled from the spec: `db_conn.DBConn.user_id_exist` (be/model/db_conn.py
is not under src/) — the account service's existence check, a `find` against
the `user` collection by `user_id`. -/
def user_id_exist (uid : String) : DB → PRes Bool :=
  prim (fun db => (db.users.any (fun u => u.user_id == uid), db))

/-- Modelled from the spec: `db_conn.DBConn.store_id_exist` (be/model/db_conn.py
is not under src/) — existence check against the `user_store` ownership
collection by `store_id`. -/
def store_id_exist (sid : String) : DB → PRes Bool :=
  prim (fun db => (db.user_store.any (fun s => s.store_id == sid), db))

/-- Modelled from the spec: `db_conn.DBConn.book_id_exist` (be/model/db_conn.py
is not under src/) — existence check against the `store` listing collection
by the (store_id, book_id) pair. -/
def book_id_exist (sid bid : String) : DB → PRes Bool :=
  prim (fun db => (db.store.any (fun b => b.store_id == sid && b.book_id == bid), db))

/-- A (code, message) result pair. -/
abbrev Res := Int × String

/-- Modelled from the spec: `error.error_authorization_fail` (be/model/error.py
is not under src/).  The ErrorCatalog maps every authorization failure to one
fixed (code, message) pair, distinct from 200/528/530; the concrete numeral is
representative. -/
def error_authorization_fail : Res := (401, "authorization fail")

/-- Modelled from the spec: `error.error_exist_user_id` — duplicate-user
semantic failure; one fixed code per kind, distinct from 200/528/530. -/
def error_exist_user_id (uid : String) : Res := (512, "exist user id " ++ uid)

/-- Modelled from the spec: `error.error_non_exist_user_id` — missing-user
semantic failure. -/
def error_non_exist_user_id (uid : String) : Res := (511, "non exist user id " ++ uid)

/-- Modelled from the spec: `error.error_non_exist_store_id` — missing-store
semantic failure. -/
def error_non_exist_store_id (sid : String) : Res := (513, "non exist store id " ++ sid)

/-- Modelled from the spec: `error.error_exist_store_id` — duplicate-store
semantic failure (also the pair `ship_order` reuses when the store is
absent). -/
def error_exist_store_id (sid : String) : Res := (514, "exist store id " ++ sid)

/-- Modelled from the spec: `error.error_non_exist_book_id` — missing-book
semantic failure. -/
def error_non_exist_book_id (bid : String) : Res := (515, "non exist book id " ++ bid)

/-- Modelled from the spec: `error.error_exist_book_id` — duplicate-book
semantic failure. -/
def error_exist_book_id (bid : String) : Res := (516, "exist book id " ++ bid)

/-- The `try/except pymongo.errors.PyMongoError` boundary: a raised
persistence error becomes the result `(528, str(e))`. -/
def catch528 (r : PRes Res) : Res × DB :=
  match r with
  | .ok a db => (a, db)
  | .err m db => ((528, m), db)

/-- `token_lifetime` of class `User` (seconds). -/
def token_lifetime : Int := 3600

/-- `User.__check_token`: equality with the stored token first, then
signature verification (`InvalidSignatureError` is caught and falls through
to `False`), then presence of `timestamp`, then the age check. -/
def __check_token (user_id : String) (db_token token : Token) (now : Int) : Bool :=
  if db_token ≠ token then false
  else
    match jwt_decode token user_id with
    | .error _ => false
    | .ok payload =>
      match payload.timestamp with
      | none => false
      | some ts => if now - ts ≤ token_lifetime then true else false

/-- `User.check_token`.  The source has no `try/except` here, so a raised
`PyMongoError` propagates to the caller: the return type is `PRes Res`, not
`Res × DB`. -/
def check_token (user_id : String) (token : Token) (now : Int) (db : DB) : PRes Res :=
  match findUser user_id db with
  | .err m db1 => .err m db1
  | .ok none db1 => .ok error_authorization_fail db1
  | .ok (some u) db1 =>
    if __check_token user_id u.token token now then .ok (200, "ok") db1
    else .ok error_authorization_fail db1

/-- Body of `User.check_password` inside its `try`. -/
def check_password_run (user_id password : String) (db : DB) : PRes Res :=
  match findUser user_id db with
  | .err m db1 => .err m db1
  | .ok none db1 => .ok error_authorization_fail db1
  | .ok (some u) db1 =>
    if u.password ≠ password then .ok error_authorization_fail db1
    else .ok (200, "ok") db1

/-- `User.check_password` (public, with the 528 boundary). -/
def check_password (user_id password : String) (db : DB) : Res × DB :=
  catch528 (check_password_run user_id password db)

/-- Body of `User.register` inside its `try`. -/
def register_run (user_id password : String) (now : Int) (db : DB) : PRes Res :=
  match findUser user_id db with
  | .err m db1 => .err m db1
  | .ok (some _) db1 => .ok (error_exist_user_id user_id) db1
  | .ok none db1 =>
    match insertUser
        { user_id := user_id, password := password, balance := 0,
          token := jwt_encode user_id (mkTerminal now) now,
          terminal := mkTerminal now } db1 with
    | .err m db2 => .err m db2
    | .ok _ db2 => .ok (200, "ok") db2

/-- `User.register` (public, with the 528 boundary). -/
def register (user_id password : String) (now : Int) (db : DB) : Res × DB :=
  catch528 (register_run user_id password now db)

/-- The third component of `User.login`'s return value.  The source returns
a triple `(code, message, token_or_empty_string)` on most paths but a bare
pair on the zero-row-update path; `absent` marks that bare pair, `blank`
marks a literal `""`, `tok` a real token. -/
inductive TokSlot where
  | absent
  | blank
  | tok (t : Token)
deriving DecidableEq, Repr

/-- Body of `User.login` inside its `try`.  `check_password` is the public
method, which already converts persistence errors to `(528, msg)`. -/
def login_run (user_id password terminal : String) (now : Int) (db : DB) :
    PRes (Res × TokSlot) :=
  match check_password user_id password db with
  | (r, db1) =>
    if r.1 ≠ 200 then .ok (r, .blank) db1
    else
      match updUserTokTerm user_id (jwt_encode user_id terminal now) terminal db1 with
      | .err m db2 => .err m db2
      | .ok matched db2 =>
        if matched = 0 then .ok (error_authorization_fail, .absent) db2
        else .ok ((200, "ok"), .tok (jwt_encode user_id terminal now)) db2

/-- `User.login` (public, with the 528 boundary; the except branches return
a triple with an empty token slot). -/
def login (user_id password terminal : String) (now : Int) (db : DB) :
    (Res × TokSlot) × DB :=
  match login_run user_id password terminal now db with
  | .ok a db1 => (a, db1)
  | .err m db1 => (((528, m), .blank), db1)

/-- Body of `User.logout` inside its `try`; `check_token` is un-caught in
its own body, so its raise is observed here, inside logout's `try`. -/
def logout_run (user_id : String) (token : Token) (now : Int) (db : DB) : PRes Res :=
  match check_token user_id token now db with
  | .err m db1 => .err m db1
  | .ok r db1 =>
    if r.1 ≠ 200 then .ok r db1
    else
      match updUserTokTerm user_id (jwt_encode user_id (mkTerminal now) now)
          (mkTerminal now) db1 with
      | .err m db2 => .err m db2
      | .ok matched db2 =>
        if matched = 0 then .ok error_authorization_fail db2
        else .ok (200, "ok") db2

/-- `User.logout` (public, with the 528 boundary). -/
def logout (user_id : String) (token : Token) (now : Int) (db : DB) : Res × DB :=
  catch528 (logout_run user_id token now db)

/-- Body of `User.unregister` inside its `try`. -/
def unregister_run (user_id password : String) (db : DB) : PRes Res :=
  match check_password user_id password db with
  | (r, db1) =>
    if r.1 ≠ 200 then .ok r db1
    else
      match deleteUser user_id db1 with
      | .err m db2 => .err m db2
      | .ok deleted db2 =>
        if deleted ≠ 1 then .ok error_authorization_fail db2
        else .ok (200, "ok") db2

/-- `User.unregister` (public, with the 528 boundary). -/
def unregister (user_id password : String) (db : DB) : Res × DB :=
  catch528 (unregister_run user_id password db)

/-- Body of `User.change_password` inside its `try`.  The result of the
`update_one` is never inspected: whatever it matched, the method returns
`(200, "ok")`. -/
def change_password_run (user_id old_password new_password : String) (now : Int)
    (db : DB) : PRes Res :=
  match check_password user_id old_password db with
  | (r, db1) =>
    if r.1 ≠ 200 then .ok r db1
    else
      match updUserPwdTokTerm user_id new_password
          (jwt_encode user_id (mkTerminal now) now) (mkTerminal now) db1 with
      | .err m db2 => .err m db2
      | .ok _ db2 => .ok (200, "ok") db2

/-- `User.change_password` (public, with the 528 boundary). -/
def change_password (user_id old_password new_password : String) (now : Int)
    (db : DB) : Res × DB :=
  catch528 (change_password_run user_id old_password new_password now db)

/-- Body of `Seller.add_book` inside its `try`: user, store, duplicate-book
checks in that order, then the insert. -/
def add_book_run (user_id store_id book_id book_json_str : String)
    (stock_level : Int) (db : DB) : PRes Res :=
  match user_id_exist user_id db with
  | .err m d => .err m d
  | .ok ue d1 =>
    if !ue then .ok (error_non_exist_user_id user_id) d1
    else
      match store_id_exist store_id d1 with
      | .err m d => .err m d
      | .ok se d2 =>
        if !se then .ok (error_non_exist_store_id store_id) d2
        else
          match book_id_exist store_id book_id d2 with
          | .err m d => .err m d
          | .ok be d3 =>
            if be then .ok (error_exist_book_id book_id) d3
            else
              match insertBook
                  { store_id := store_id, book_id := book_id,
                    book_info := book_json_str, stock_level := stock_level } d3 with
              | .err m d => .err m d
              | .ok _ d4 => .ok (200, "ok") d4

/-- `Seller.add_book` (public, with the 528 boundary). -/
def add_book (user_id store_id book_id book_json_str : String)
    (stock_level : Int) (db : DB) : Res × DB :=
  catch528 (add_book_run user_id store_id book_id book_json_str stock_level db)

/-- Body of `Seller.add_stock_level` inside its `try`: user, store, book
checks, then the atomic `$inc` of `stock_level` (the delta is not clamped). -/
def add_stock_level_run (user_id store_id book_id : String)
    (add_stock : Int) (db : DB) : PRes Res :=
  match user_id_exist user_id db with
  | .err m d => .err m d
  | .ok ue d1 =>
    if !ue then .ok (error_non_exist_user_id user_id) d1
    else
      match store_id_exist store_id d1 with
      | .err m d => .err m d
      | .ok se d2 =>
        if !se then .ok (error_non_exist_store_id store_id) d2
        else
          match book_id_exist store_id book_id d2 with
          | .err m d => .err m d
          | .ok be d3 =>
            if !be then .ok (error_non_exist_book_id book_id) d3
            else
              match incStock store_id book_id add_stock d3 with
              | .err m d => .err m d
              | .ok _ d4 => .ok (200, "ok") d4

/-- `Seller.add_stock_level` (public, with the 528 boundary). -/
def add_stock_level (user_id store_id book_id : String)
    (add_stock : Int) (db : DB) : Res × DB :=
  catch528 (add_stock_level_run user_id store_id book_id add_stock db)

/-- Body of `Seller.create_store` inside its `try`. -/
def create_store_run (user_id store_id : String) (db : DB) : PRes Res :=
  match user_id_exist user_id db with
  | .err m d => .err m d
  | .ok ue d1 =>
    if !ue then .ok (error_non_exist_user_id user_id) d1
    else
      match store_id_exist store_id d1 with
      | .err m d => .err m d
      | .ok se d2 =>
        if se then .ok (error_exist_store_id store_id) d2
        else
          match insertUserStore { store_id := store_id, user_id := user_id } d2 with
          | .err m d => .err m d
          | .ok _ d3 => .ok (200, "ok") d3

/-- `Seller.create_store` (public, with the 528 boundary). -/
def create_store (user_id store_id : String) (db : DB) : Res × DB :=
  catch528 (create_store_run user_id store_id db)

/-- Body of `Seller.ship_order` inside its `try`: user check, store check
(returning `error_exist_store_id`, as the source comment notes), order
lookup, status check, then the single field-set to `'shipped'`. -/
def ship_order_run (user_id store_id order_id : String) (db : DB) : PRes Res :=
  match user_id_exist user_id db with
  | .err m d => .err m d
  | .ok ue d1 =>
    if !ue then .ok (error_non_exist_user_id user_id) d1
    else
      match store_id_exist store_id d1 with
      | .err m d => .err m d
      | .ok se d2 =>
        if !se then .ok (error_exist_store_id store_id) d2
        else
          match findOrder order_id d2 with
          | .err m d => .err m d
          | .ok none d3 => .ok (400, "Invalid order ID") d3
          | .ok (some o) d3 =>
            if o.status ≠ "paid" then .ok (400, "Order is not paid") d3
            else
              match updOrderStatus order_id "shipped" d3 with
              | .err m d => .err m d
              | .ok _ d4 => .ok (200, "ok") d4

/-- `Seller.ship_order` (public, with the 528 boundary). -/
def ship_order (user_id store_id order_id : String) (db : DB) : Res × DB :=
  catch528 (ship_order_run user_id store_id order_id db)

/-- Pure form of the user existence check, for stating theorems about states
whose interference script is empty. -/
def hasUser (uid : String) (db : DB) : Bool :=
  db.users.any (fun u => u.user_id == uid)

/-- Pure form of the store existence check. -/
def hasStore (sid : String) (db : DB) : Bool :=
  db.user_store.any (fun s => s.store_id == sid)

/-- Pure form of the book existence check. -/
def hasBook (sid bid : String) (db : DB) : Bool :=
  db.store.any (fun b => b.store_id == sid && b.book_id == bid)

/-- The order `find_one` returns a document with status `'paid'`. -/
def paidOrder (oid : String) (db : DB) : Bool :=
  match db.order_history.find? (fun o => o.order_id == oid) with
  | some o => o.status == "paid"
  | none => false

/-- A catalog-mutating call, for stating properties of operation
sequences. -/
inductive SellerOp where
  | book (uid sid bid info : String) (stock : Int)
  | stock (uid sid bid : String) (delta : Int)
deriving DecidableEq, Repr

/-- State reached by one catalog call (result discarded). -/
def applyOp (db : DB) : SellerOp → DB
  | .book u s b i st => (add_book u s b i st db).2
  | .stock u s b d => (add_stock_level u s b d db).2

/-- State reached by a sequence of catalog calls. -/
def runOps (db : DB) : List SellerOp → DB
  | [] => db
  | op :: rest => runOps (applyOp db op) rest

/-- The stock argument of the call is non-negative. -/
def nonnegOp : SellerOp → Prop
  | .book _ _ _ _ st => 0 ≤ st
  | .stock _ _ _ d => 0 ≤ d

/-- Every listing in the `store` collection has non-negative stock. -/
def stockInv (db : DB) : Prop :=
  ∀ b ∈ db.store, 0 ≤ b.stock_level

theorem prim_nil (f : DB → α × DB) (db : DB) (h : db.script = []) :
    prim f db = .ok (f db).1 (f db).2 := by
  simp [prim, h]

theorem any_of_find {p : α → Bool} {l : List α} {a : α}
    (h : l.find? p = some a) : l.any p = true :=
  List.any_eq_true.mpr ⟨a, List.mem_of_find?_eq_some h, List.find?_some h⟩

theorem find?_updateFirst (p : α → Bool) (f : α → α)
    (hp : ∀ a, p (f a) = p a) (l : List α) :
    List.find? p (updateFirst p f l) = (List.find? p l).map f := by
  induction l with
  | nil => simp [updateFirst]
  | cons x xs ih =>
    by_cases hx : p x = true
    · simp [updateFirst, hx, List.find?_cons, hp]
    · simp [updateFirst, hx, List.find?_cons, ih]

/-- C1: for every user_id, stored token, presented token and current time,
`__check_token` returns `true` iff the presented token byte-equals the
stored one, the embedded signature verifies under the key derived from the
user_id, the decoded payload carries a `timestamp`, and `now - timestamp ≤
3600`; in every other case (non-current token, signature failure, missing
timestamp) it returns `false` — it is a total function, so no exception
escapes it for these inputs. -/
theorem check_token_core_iff (user_id : String) (db_token token : Token) (now : Int) :
    __check_token user_id db_token token now = true ↔
      (db_token = token ∧ token.key = user_id ∧
        ∃ ts, token.timestamp = some ts ∧ now - ts ≤ token_lifetime) := by
  by_cases h1 : db_token = token
  · by_cases h2 : token.key = user_id
    · cases hts : token.timestamp with
      | none => simp [__check_token, jwt_decode, h1, h2, hts]
      | some ts =>
        by_cases h3 : now - ts ≤ token_lifetime
        · simp [__check_token, jwt_decode, h1, h2, hts, h3]
          omega
        · simp [__check_token, jwt_decode, h1, h2, hts, h3]
          omega
    · simp [__check_token, jwt_decode, h1, h2]
  · simp [__check_token, jwt_decode, h1]

theorem check_token_core_iff_witness :
    __check_token "u" (jwt_encode "u" "t" 5) (jwt_encode "u" "t" 5) 7 = true :=
  (check_token_core_iff "u" (jwt_encode "u" "t" 5) (jwt_encode "u" "t" 5) 7).mpr
    ⟨rfl, rfl, 5, rfl, by decide⟩

/-- The session token a login of user `"u"` from terminal `"t"` at time 0
issues. -/
def tok0 : Token := jwt_encode "u" "t" 0

/-- A small concrete state: one registered user `"u"` (as left by a login at
time 0 from terminal `"t"`), one store `"s"` owned by them, one listing with
stock 10, one paid order `"o"`; empty interference script. -/
def db0 : DB :=
  { users := [{ user_id := "u", password := "p", balance := 0,
                token := tok0, terminal := "t" }],
    store := [{ store_id := "s", book_id := "b", book_info := "i", stock_level := 10 }],
    user_store := [{ store_id := "s", user_id := "u" }],
    order_history := [{ order_id := "o", status := "paid" }],
    script := [] }

/-- `db0` with a persistence layer that raises `PyMongoError "boom"` on the
next driver call. -/
def dbBoom : DB := { db0 with script := [Ev.raise "boom"] }

theorem login_rotation_counterexample :
    (login "u" "p" "t" 0 db0).1 = ((200, "ok"), TokSlot.tok tok0) ∧
    check_token "u" tok0 0 (login "u" "p" "t" 0 db0).2 =
      PRes.ok (200, "ok") (login "u" "p" "t" 0 db0).2 := by
  constructor <;> rfl

/-- C4, the code evaluated at the failing input: `check_token` has no
`try/except` in the source, so a `PyMongoError` raised by its `find_one`
propagates to the caller instead of coming back as a `(528, msg)` result;
every sibling operation converts the identical raise into `(528, msg)`
(`register` shown as the contrast). -/
theorem check_token_propagates_storage_error :
    check_token "u" tok0 0 dbBoom = PRes.err "boom" db0 ∧
    register "u2" "p2" 0 dbBoom = ((528, "boom"), db0) := by
  constructor <;> rfl

theorem stock_nonneg_counterexample :
    (add_book "u" "s" "b2" "i2" (-1) db0).1 = (200, "ok") ∧
    ((add_book "u" "s" "b2" "i2" (-1) db0).2.store.all
      (fun b => decide (0 ≤ b.stock_level))) = false := by
  constructor <;> rfl

theorem login_success_eval (db : DB) (uid pwd term : String) (u : UserDoc) (now : Int)
    (hs : db.script = [])
    (hu : db.users.find? (fun x => x.user_id == uid) = some u)
    (hp : u.password = pwd) :
    login uid pwd term now db =
      (((200, "ok"), TokSlot.tok (jwt_encode uid term now)),
       { db with users := (updateFirst (fun x => x.user_id == uid)
           (setTokTerm (jwt_encode uid term now) term) db.users) }) := by
  have hany := any_of_find hu
  simp [login, login_run, check_password, check_password_run, catch528,
        findUser, updUserTokTerm, prim, hs, hu, hp, hany]

theorem change_password_success_eval (db : DB) (uid pwd newp : String)
    (u : UserDoc) (now : Int)
    (hs : db.script = [])
    (hu : db.users.find? (fun x => x.user_id == uid) = some u)
    (hp : u.password = pwd) :
    change_password uid pwd newp now db =
      ((200, "ok"),
       { db with users := (updateFirst (fun x => x.user_id == uid)
           (setPwdTokTerm newp (jwt_encode uid (mkTerminal now) now) (mkTerminal now))
           db.users) }) := by
  have hany := any_of_find hu
  simp [change_password, change_password_run, check_password, check_password_run,
        catch528, findUser, updUserPwdTokTerm, prim, hs, hu, hp, hany]

theorem logout_success_eval (db : DB) (uid : String) (T : Token) (u : UserDoc) (now : Int)
    (hs : db.script = [])
    (hu : db.users.find? (fun x => x.user_id == uid) = some u)
    (ht : __check_token uid u.token T now = true) :
    logout uid T now db =
      ((200, "ok"),
       { db with users := (updateFirst (fun x => x.user_id == uid)
           (setTokTerm (jwt_encode uid (mkTerminal now) now) (mkTerminal now))
           db.users) }) := by
  have hany := any_of_find hu
  simp [logout, logout_run, check_token, catch528, findUser, updUserTokTerm,
        prim, hs, hu, ht, hany]

theorem check_token_after_update (db : DB) (uid : String) (u : UserDoc)
    (g : UserDoc → UserDoc) (T : Token) (now2 : Int)
    (hs : db.script = [])
    (hu : db.users.find? (fun x => x.user_id == uid) = some u)
    (hg : ∀ a, (g a).user_id = a.user_id)
    (hne : T ≠ (g u).token) :
    check_token uid T now2
      { db with users := (updateFirst (fun x => x.user_id == uid) g db.users) } =
      PRes.ok error_authorization_fail
        { db with users := (updateFirst (fun x => x.user_id == uid) g db.users) } := by
  have hf : (updateFirst (fun x => x.user_id == uid) g db.users).find?
      (fun x => x.user_id == uid) = some (g u) := by
    rw [find?_updateFirst _ _ (fun a => by simp [hg]), hu]
    rfl
  have hcc : __check_token uid (g u).token T now2 = false := by
    unfold __check_token
    rw [if_pos (Ne.symm hne)]
  simp [check_token, findUser, prim, hs, hf, hcc]

theorem check_token_after_update_ok (db : DB) (uid : String) (u : UserDoc)
    (g : UserDoc → UserDoc) (T : Token) (now2 : Int)
    (hs : db.script = [])
    (hu : db.users.find? (fun x => x.user_id == uid) = some u)
    (hg : ∀ a, (g a).user_id = a.user_id)
    (hok : __check_token uid (g u).token T now2 = true) :
    check_token uid T now2
      { db with users := (updateFirst (fun x => x.user_id == uid) g db.users) } =
      PRes.ok (200, "ok")
        { db with users := (updateFirst (fun x => x.user_id == uid) g db.users) } := by
  have hf : (updateFirst (fun x => x.user_id == uid) g db.users).find?
      (fun x => x.user_id == uid) = some (g u) := by
    rw [find?_updateFirst _ _ (fun a => by simp [hg]), hu]
    rfl
  simp [check_token, findUser, prim, hs, hf, hok]

theorem check_token_core_fresh (uid term : String) (now now2 : Int)
    (hage : now2 - now ≤ token_lifetime) :
    __check_token uid (jwt_encode uid term now) (jwt_encode uid term now) now2 = true := by
  simp [__check_token, jwt_decode, jwt_encode, hage]

/-- C2 (amended): after a successful second login, or change_password, or
logout, checking the previous token T fails with AuthorizationFailed,
provided the freshly issued token differs from T — the fresh token coincides
with T exactly when the operation re-issues the same payload (same terminal
and same issue timestamp), in which case the stored bytes are unchanged and
T still validates. -/
theorem rotation_invalidates_prior_token (db : DB) (uid pwd newp term : String)
    (u : UserDoc) (T : Token) (now now2 : Int)
    (hs : db.script = [])
    (hu : db.users.find? (fun x => x.user_id == uid) = some u)
    (hp : u.password = pwd) :
    (T ≠ jwt_encode uid term now →
      check_token uid T now2 (login uid pwd term now db).2 =
        PRes.ok error_authorization_fail (login uid pwd term now db).2) ∧
    (T ≠ jwt_encode uid (mkTerminal now) now →
      check_token uid T now2 (change_password uid pwd newp now db).2 =
        PRes.ok error_authorization_fail (change_password uid pwd newp now db).2) ∧
    (__check_token uid u.token T now = true →
      T ≠ jwt_encode uid (mkTerminal now) now →
      check_token uid T now2 (logout uid T now db).2 =
        PRes.ok error_authorization_fail (logout uid T now db).2) := by
  refine ⟨fun hne => ?_, fun hne => ?_, fun ht hne => ?_⟩
  · rw [login_success_eval db uid pwd term u now hs hu hp]
    exact check_token_after_update db uid u
      (setTokTerm (jwt_encode uid term now) term) T now2 hs hu (fun a => rfl) hne
  · rw [change_password_success_eval db uid pwd newp u now hs hu hp]
    exact check_token_after_update db uid u
      (setPwdTokTerm newp (jwt_encode uid (mkTerminal now) now) (mkTerminal now))
      T now2 hs hu (fun a => rfl) hne
  · rw [logout_success_eval db uid T u now hs hu ht]
    exact check_token_after_update db uid u
      (setTokTerm (jwt_encode uid (mkTerminal now) now) (mkTerminal now))
      T now2 hs hu (fun a => rfl) hne

theorem rotation_invalidates_prior_token_witness :
    check_token "u" tok0 1 (login "u" "p" "t" 1 db0).2 =
      PRes.ok error_authorization_fail (login "u" "p" "t" 1 db0).2 ∧
    check_token "u" tok0 1 (change_password "u" "p" "q" 1 db0).2 =
      PRes.ok error_authorization_fail (change_password "u" "p" "q" 1 db0).2 ∧
    check_token "u" tok0 1 (logout "u" tok0 1 db0).2 =
      PRes.ok error_authorization_fail (logout "u" tok0 1 db0).2 :=
  ⟨(rotation_invalidates_prior_token db0 "u" "p" "q" "t"
      ⟨"u", "p", 0, tok0, "t"⟩ tok0 1 1 rfl rfl rfl).1 (by decide),
   (rotation_invalidates_prior_token db0 "u" "p" "q" "t"
      ⟨"u", "p", 0, tok0, "t"⟩ tok0 1 1 rfl rfl rfl).2.1 (by decide),
   (rotation_invalidates_prior_token db0 "u" "p" "q" "t"
      ⟨"u", "p", 0, tok0, "t"⟩ tok0 1 1 rfl rfl rfl).2.2 (by decide) (by decide)⟩

/-- C6: for every registered user with password p and every terminal, a
successful login immediately followed by check_token with the returned token
succeeds, provided the elapsed time stays within the 3600-second lifetime
and nothing else intervenes. -/
theorem login_then_check_token (db : DB) (uid pwd term : String) (u : UserDoc)
    (now now2 : Int)
    (hs : db.script = [])
    (hu : db.users.find? (fun x => x.user_id == uid) = some u)
    (hp : u.password = pwd)
    (hage : now2 - now ≤ token_lifetime) :
    (login uid pwd term now db).1 =
      ((200, "ok"), TokSlot.tok (jwt_encode uid term now)) ∧
    check_token uid (jwt_encode uid term now) now2 (login uid pwd term now db).2 =
      PRes.ok (200, "ok") (login uid pwd term now db).2 := by
  rw [login_success_eval db uid pwd term u now hs hu hp]
  exact ⟨rfl, check_token_after_update_ok db uid u
    (setTokTerm (jwt_encode uid term now) term) (jwt_encode uid term now) now2 hs hu
    (fun a => rfl) (check_token_core_fresh uid term now now2 hage)⟩

theorem login_then_check_token_witness :
    (login "u" "p" "t" 0 db0).1 = ((200, "ok"), TokSlot.tok (jwt_encode "u" "t" 0)) ∧
    check_token "u" (jwt_encode "u" "t" 0) 0 (login "u" "p" "t" 0 db0).2 =
      PRes.ok (200, "ok") (login "u" "p" "t" 0 db0).2 :=
  login_then_check_token db0 "u" "p" "t" ⟨"u", "p", 0, tok0, "t"⟩ 0 0 rfl rfl rfl (by decide)

theorem paidOrder_iff (oid : String) (db : DB) :
    paidOrder oid db = true ↔
      ∃ o, db.order_history.find? (fun x => x.order_id == oid) = some o ∧
        o.status = "paid" := by
  unfold paidOrder
  cases h : db.order_history.find? (fun x => x.order_id == oid) <;> simp [h]

theorem ship_order_eval (db : DB) (uid sid oid : String) (hs : db.script = []) :
    ship_order uid sid oid db =
      if hasUser uid db = false then (error_non_exist_user_id uid, db)
      else if hasStore sid db = false then (error_exist_store_id sid, db)
      else
        match db.order_history.find? (fun o => o.order_id == oid) with
        | none => ((400, "Invalid order ID"), db)
        | some o =>
          if o.status ≠ "paid" then ((400, "Order is not paid"), db)
          else ((200, "ok"),
            { db with order_history := (updateFirst (fun x => x.order_id == oid)
                (fun x => { x with status := "shipped" }) db.order_history) }) := by
  simp only [ship_order, ship_order_run, user_id_exist, store_id_exist, findOrder,
    updOrderStatus, prim, hs, catch528, hasUser, hasStore]
  cases hU : db.users.any (fun x => x.user_id == uid) with
  | false => simp [hs]
  | true =>
    cases hS : db.user_store.any (fun x => x.store_id == sid) with
    | false => simp [hs]
    | true =>
      cases hO : db.order_history.find? (fun x => x.order_id == oid) with
      | none => simp [hs]
      | some o =>
        by_cases hP : o.status = "paid"
        · simp [hs, hP]
        · simp [hs, hP]

/-- C3: with no persistence-layer interference, `ship_order` succeeds and
sets the order's status to 'shipped' iff the user exists, the store exists,
and the order exists with status 'paid'.  Given an existing user, an absent
store fails with the store-existence error pair the source reuses, an
absent order with `(400, "Invalid order ID")`, and a non-paid order — hence
also an immediately repeated ship of the same order — with `(400, "Order is
not paid")`: the paid→shipped transition happens exactly once. -/
theorem ship_order_spec (db : DB) (uid sid oid : String) (hs : db.script = []) :
    ((ship_order uid sid oid db).1 = (200, "ok") ↔
      (hasUser uid db ∧ hasStore sid db ∧ paidOrder oid db)) ∧
    ((ship_order uid sid oid db).1 = (200, "ok") →
      (ship_order uid sid oid db).2 =
        { db with order_history := (updateFirst (fun x => x.order_id == oid)
            (fun x => { x with status := "shipped" }) db.order_history) }) ∧
    (hasUser uid db → hasStore sid db = false →
      ship_order uid sid oid db = (error_exist_store_id sid, db)) ∧
    (hasUser uid db → hasStore sid db →
      db.order_history.find? (fun x => x.order_id == oid) = none →
      ship_order uid sid oid db = ((400, "Invalid order ID"), db)) ∧
    (∀ o, hasUser uid db → hasStore sid db →
      db.order_history.find? (fun x => x.order_id == oid) = some o →
      o.status ≠ "paid" →
      ship_order uid sid oid db = ((400, "Order is not paid"), db)) ∧
    ((ship_order uid sid oid db).1 = (200, "ok") →
      (ship_order uid sid oid (ship_order uid sid oid db).2).1 =
        (400, "Order is not paid")) := by
  have he := ship_order_eval db uid sid oid hs
  cases hU : hasUser uid db with
  | false =>
    have hr : ship_order uid sid oid db = (error_non_exist_user_id uid, db) := by
      rw [he]; simp [hU]
    simp [hr, hU, error_non_exist_user_id]
  | true =>
    cases hS : hasStore sid db with
    | false =>
      have hr : ship_order uid sid oid db = (error_exist_store_id sid, db) := by
        rw [he]; simp [hU, hS]
      simp [hr, hU, hS, error_exist_store_id]
    | true =>
      cases hO : db.order_history.find? (fun x => x.order_id == oid) with
      | none =>
        have hr : ship_order uid sid oid db = ((400, "Invalid order ID"), db) := by
          rw [he]; simp [hU, hS, hO]
        have hp : paidOrder oid db = false := by simp [paidOrder, hO]
        simp [hr, hU, hS, hO, hp]
      | some o =>
        by_cases hP : o.status = "paid"
        · have hr : ship_order uid sid oid db = ((200, "ok"),
              { db with order_history := (updateFirst (fun x => x.order_id == oid)
                  (fun x => { x with status := "shipped" }) db.order_history) }) := by
            rw [he]; simp [hU, hS, hO, hP]
          have hp : paidOrder oid db = true := by simp [paidOrder, hO, hP]
          have hU2 : hasUser uid { db with order_history := (updateFirst
              (fun x => x.order_id == oid)
              (fun x => { x with status := "shipped" }) db.order_history) } = true := hU
          have hS2 : hasStore sid { db with order_history := (updateFirst
              (fun x => x.order_id == oid)
              (fun x => { x with status := "shipped" }) db.order_history) } = true := hS
          have hO2 : (updateFirst (fun x => x.order_id == oid)
              (fun x => { x with status := "shipped" }) db.order_history).find?
              (fun x => x.order_id == oid) = some { o with status := "shipped" } := by
            rw [find?_updateFirst (fun x : OrderDoc => x.order_id == oid)
              (fun x : OrderDoc => { x with status := "shipped" }) (fun a => rfl), hO]
            rfl
          have hs2 : ({ db with order_history := (updateFirst
              (fun x => x.order_id == oid)
              (fun x => { x with status := "shipped" }) db.order_history) } : DB).script =
              [] := hs
          have hsecond : (ship_order uid sid oid (ship_order uid sid oid db).2).1 =
              (400, "Order is not paid") := by
            rw [hr, ship_order_eval _ uid sid oid hs2]
            simp [hU2, hS2, hO2]
          rw [hr] at hsecond
          simp only [Prod.snd] at hsecond
          simp [hr, hU, hS, hO, hp, hP, hsecond]
        · have hr : ship_order uid sid oid db = ((400, "Order is not paid"), db) := by
            rw [he]; simp [hU, hS, hO, hP]
          have hp : paidOrder oid db = false := by simp [paidOrder, hO, hP]
          simp [hr, hU, hS, hO, hp, hP]

theorem ship_order_spec_witness :
    (ship_order "u" "s" "o" db0).1 = (200, "ok") ∧
    (ship_order "u" "s" "o" (ship_order "u" "s" "o" db0).2).1 =
      (400, "Order is not paid") :=
  ⟨(ship_order_spec db0 "u" "s" "o" rfl).1.mpr ⟨by decide, by decide, by decide⟩,
   (ship_order_spec db0 "u" "s" "o" rfl).2.2.2.2.2
     ((ship_order_spec db0 "u" "s" "o" rfl).1.mpr ⟨by decide, by decide, by decide⟩)⟩

theorem register_eval (db : DB) (uid pwd : String) (now : Int) (hs : db.script = []) :
    register uid pwd now db =
      match db.users.find? (fun x => x.user_id == uid) with
      | some _ => (error_exist_user_id uid, db)
      | none => ((200, "ok"),
          { db with users := db.users ++
              [{ user_id := uid, password := pwd, balance := 0,
                 token := jwt_encode uid (mkTerminal now) now,
                 terminal := mkTerminal now }] }) := by
  simp only [register, register_run, findUser, insertUser, prim, hs, catch528]
  cases hF : db.users.find? (fun x => x.user_id == uid) with
  | none => simp [hs]
  | some u => simp [hs]

theorem create_store_eval (db : DB) (uid sid : String) (hs : db.script = []) :
    create_store uid sid db =
      if hasUser uid db = false then (error_non_exist_user_id uid, db)
      else if hasStore sid db then (error_exist_store_id sid, db)
      else ((200, "ok"), { db with user_store := db.user_store ++
        [{ store_id := sid, user_id := uid }] }) := by
  simp only [create_store, create_store_run, user_id_exist, store_id_exist,
    insertUserStore, prim, hs, catch528, hasUser, hasStore]
  cases hU : db.users.any (fun x => x.user_id == uid) with
  | false => simp [hs]
  | true =>
    cases hS : db.user_store.any (fun x => x.store_id == sid) with
    | false => simp [hs]
    | true => simp [hs]

theorem add_book_eval (db : DB) (uid sid bid info : String) (st : Int)
    (hs : db.script = []) :
    add_book uid sid bid info st db =
      if hasUser uid db = false then (error_non_exist_user_id uid, db)
      else if hasStore sid db = false then (error_non_exist_store_id sid, db)
      else if hasBook sid bid db then (error_exist_book_id bid, db)
      else ((200, "ok"), { db with store := db.store ++
        [{ store_id := sid, book_id := bid, book_info := info, stock_level := st }] }) := by
  simp only [add_book, add_book_run, user_id_exist, store_id_exist, book_id_exist,
    insertBook, prim, hs, catch528, hasUser, hasStore, hasBook]
  cases hU : db.users.any (fun x => x.user_id == uid) with
  | false => simp [hs]
  | true =>
    cases hS : db.user_store.any (fun x => x.store_id == sid) with
    | false => simp [hs]
    | true =>
      cases hB : db.store.any (fun b => b.store_id == sid && b.book_id == bid) with
      | false => simp [hs]
      | true => simp [hs]

theorem add_stock_level_eval (db : DB) (uid sid bid : String) (d : Int)
    (hs : db.script = []) :
    add_stock_level uid sid bid d db =
      if hasUser uid db = false then (error_non_exist_user_id uid, db)
      else if hasStore sid db = false then (error_non_exist_store_id sid, db)
      else if hasBook sid bid db = false then (error_non_exist_book_id bid, db)
      else ((200, "ok"), { db with store := (updateFirst
        (fun b => b.store_id == sid && b.book_id == bid)
        (fun b => { b with stock_level := b.stock_level + d }) db.store) }) := by
  simp only [add_stock_level, add_stock_level_run, user_id_exist, store_id_exist,
    book_id_exist, incStock, prim, hs, catch528, hasUser, hasStore, hasBook]
  cases hU : db.users.any (fun x => x.user_id == uid) with
  | false => simp [hs]
  | true =>
    cases hS : db.user_store.any (fun x => x.store_id == sid) with
    | false => simp [hs]
    | true =>
      cases hB : db.store.any (fun b => b.store_id == sid && b.book_id == bid) with
      | false => simp [hs]
      | true => simp [hs]

/-- C7: with no persistence-layer interference, whenever register,
create_store, add_book, add_stock_level, or ship_order returns anything but
success — on the empty interference script these are exactly the semantic
precondition failures (missing or duplicate user / store / book, missing
order, order not paid) — the state after the call is identical to the state
before it: every precondition is checked before any mutation. -/
theorem precondition_failures_mutate_nothing (db : DB)
    (uid pwd sid bid info oid : String) (st d now : Int)
    (hs : db.script = []) :
    ((register uid pwd now db).1 ≠ (200, "ok") →
      (register uid pwd now db).2 = db) ∧
    ((create_store uid sid db).1 ≠ (200, "ok") →
      (create_store uid sid db).2 = db) ∧
    ((add_book uid sid bid info st db).1 ≠ (200, "ok") →
      (add_book uid sid bid info st db).2 = db) ∧
    ((add_stock_level uid sid bid d db).1 ≠ (200, "ok") →
      (add_stock_level uid sid bid d db).2 = db) ∧
    ((ship_order uid sid oid db).1 ≠ (200, "ok") →
      (ship_order uid sid oid db).2 = db) := by
  refine ⟨?_, ?_, ?_, ?_, ?_⟩ <;> intro h
  · rw [register_eval db uid pwd now hs] at h ⊢
    split at h <;> simp_all
  · rw [create_store_eval db uid sid hs] at h ⊢
    split_ifs at h ⊢ <;> simp_all
  · rw [add_book_eval db uid sid bid info st hs] at h ⊢
    split_ifs at h ⊢ <;> simp_all
  · rw [add_stock_level_eval db uid sid bid d hs] at h ⊢
    split_ifs at h ⊢ <;> simp_all
  · rw [ship_order_eval db uid sid oid hs] at h ⊢
    split_ifs at h ⊢
    · rfl
    · rfl
    · cases hO : List.find? (fun o => o.order_id == oid) db.order_history with
      | none => simp_all
      | some o => by_cases hP : o.status = "paid" <;> simp_all

theorem precondition_failures_mutate_nothing_witness :
    (ship_order "u" "s" "missing" db0).1 ≠ (200, "ok") ∧
    (ship_order "u" "s" "missing" db0).2 = db0 :=
  ⟨by decide,
   (precondition_failures_mutate_nothing db0 "u" "p" "s" "b" "i" "missing" 1 1 0
      rfl).2.2.2.2 (by decide)⟩

/-- C10: ship_order checks only that the user id and the store id exist and
never relates either to the order: with no interference, any two existing
users and any two existing stores shipping the same order give identical
results and identical final states. -/
theorem ship_order_ignores_user_store_identity (db : DB)
    (u1 u2 s1 s2 oid : String) (hs : db.script = [])
    (hu1 : hasUser u1 db) (hu2 : hasUser u2 db)
    (hst1 : hasStore s1 db) (hst2 : hasStore s2 db) :
    ship_order u1 s1 oid db = ship_order u2 s2 oid db := by
  rw [ship_order_eval db u1 s1 oid hs, ship_order_eval db u2 s2 oid hs,
    hu1, hu2, hst1, hst2]
  simp

/-- Two users, two stores (each owned by a different user), one paid order,
no interference. -/
def db2 : DB :=
  { users := [{ user_id := "u1", password := "p1", balance := 0,
                token := jwt_encode "u1" "t" 0, terminal := "t" },
              { user_id := "u2", password := "p2", balance := 0,
                token := jwt_encode "u2" "t" 0, terminal := "t" }],
    store := [],
    user_store := [{ store_id := "s1", user_id := "u1" },
                   { store_id := "s2", user_id := "u2" }],
    order_history := [{ order_id := "o", status := "paid" }],
    script := [] }

theorem ship_order_ignores_user_store_identity_witness :
    ship_order "u1" "s1" "o" db2 = ship_order "u2" "s2" "o" db2 :=
  ship_order_ignores_user_store_identity db2 "u1" "u2" "s1" "s2" "o" rfl
    (by decide) (by decide) (by decide) (by decide)

theorem mem_updateFirst {p : α → Bool} {f : α → α} {l : List α} {b : α}
    (h : b ∈ updateFirst p f l) : b ∈ l ∨ ∃ a, a ∈ l ∧ b = f a := by
  induction l with
  | nil => simp [updateFirst] at h
  | cons x xs ih =>
    by_cases hx : p x = true
    · simp only [updateFirst, hx, if_true, List.mem_cons] at h
      rcases h with h | h
      · exact Or.inr ⟨x, List.mem_cons_self x xs, h⟩
      · exact Or.inl (List.mem_cons_of_mem x h)
    · simp only [updateFirst, hx, if_false, Bool.false_eq_true, List.mem_cons] at h
      rcases h with h | h
      · exact Or.inl (by simp [h])
      · rcases ih h with h1 | ⟨a, ha, hb⟩
        · exact Or.inl (List.mem_cons_of_mem x h1)
        · exact Or.inr ⟨a, List.mem_cons_of_mem x ha, hb⟩

theorem applyOp_stockInv (db : DB) (op : SellerOp)
    (hs : db.script = []) (hinv : stockInv db) (hop : nonnegOp op) :
    stockInv (applyOp db op) ∧ (applyOp db op).script = [] := by
  cases op with
  | book u s b i st =>
    simp only [applyOp, add_book_eval db u s b i st hs]
    split_ifs
    · exact ⟨hinv, hs⟩
    · exact ⟨hinv, hs⟩
    · exact ⟨hinv, hs⟩
    · refine ⟨?_, hs⟩
      intro x hx
      rcases List.mem_append.mp hx with hx | hx
      · exact hinv x hx
      · simp only [List.mem_singleton] at hx
        subst hx
        exact hop
  | stock u s b d =>
    simp only [applyOp, add_stock_level_eval db u s b d hs]
    split_ifs
    · exact ⟨hinv, hs⟩
    · exact ⟨hinv, hs⟩
    · exact ⟨hinv, hs⟩
    · refine ⟨?_, hs⟩
      intro x hx
      rcases mem_updateFirst hx with hx | ⟨a, ha, hb⟩
      · exact hinv x hx
      · subst hb
        have h1 := hinv a ha
        have h2 : (0 : Int) ≤ d := hop
        simp only []
        omega

/-- C5 (amended): a listing's stock_level can become negative — add_book
inserts whatever initial stock it is given and add_stock_level applies an
unclamped increment, as the source never checks the sign — but restricted
to non-negative initial stocks and non-negative deltas, the non-negativity
invariant is preserved by every sequence of the two operations, starting
from any state whose listings all have non-negative stock. -/
theorem stock_nonneg_amended (ops : List SellerOp) (db : DB)
    (hs : db.script = []) (hinv : stockInv db)
    (hops : ∀ op ∈ ops, nonnegOp op) :
    stockInv (runOps db ops) := by
  induction ops generalizing db with
  | nil => exact hinv
  | cons op rest ih =>
    rw [runOps]
    have h1 := applyOp_stockInv db op hs hinv (hops op (by simp))
    exact ih (applyOp db op) h1.2 h1.1 (fun o ho => hops o (by simp [ho]))

theorem stock_nonneg_amended_witness :
    stockInv (runOps db0 [SellerOp.stock "u" "s" "b" 5, SellerOp.book "u" "s" "b2" "i2" 3]) :=
  stock_nonneg_amended [SellerOp.stock "u" "s" "b" 5, SellerOp.book "u" "s" "b2" "i2" 3]
    db0 rfl
    (by intro b hb; simp only [db0] at hb; simp at hb; subst hb; decide)
    (by intro op ho
        simp only [List.mem_cons, List.mem_singleton] at ho
        rcases ho with h | h | h
        · subst h; exact (by norm_num : (0 : Int) ≤ 5)
        · subst h; exact (by norm_num : (0 : Int) ≤ 3)
        · cases h)

theorem find?_none_of_any_false {p : α → Bool} {l : List α}
    (h : l.any p = false) : l.find? p = none := by
  rw [List.find?_eq_none]
  intro x hx hpx
  have := List.any_eq_true.mpr ⟨x, hx, hpx⟩
  rw [h] at this
  cases this

theorem check_password_ok_skip (db : DB) (uid pwd : String) (u : UserDoc)
    (rest : List Ev)
    (hscript : db.script = Ev.ok :: rest)
    (hu : db.users.find? (fun x => x.user_id == uid) = some u)
    (hp : u.password = pwd) :
    check_password uid pwd db = ((200, "ok"), { db with script := rest }) := by
  simp [check_password, check_password_run, findUser, prim, hscript, catch528, hu, hp]

theorem check_token_ok_skip (db : DB) (uid : String) (T : Token) (now : Int)
    (u : UserDoc) (rest : List Ev)
    (hscript : db.script = Ev.ok :: rest)
    (hu : db.users.find? (fun x => x.user_id == uid) = some u)
    (ht : __check_token uid u.token T now = true) :
    check_token uid T now db = PRes.ok (200, "ok") { db with script := rest } := by
  simp [check_token, findUser, prim, hscript, hu, ht]

/-- C8: every authorization-failure cause yields the identical
AuthorizationFailed (code, message) pair: check_password on an absent user
and on a password mismatch, check_token on an absent user and on an invalid
or expired token, and login on a zero-row update after a concurrent
deletion, all return the one `error_authorization_fail` pair, so a caller
cannot tell from the result which check failed. -/
theorem auth_failures_indistinguishable (db : DB) (uid pwd term : String)
    (T : Token) (now : Int) (u : UserDoc) :
    (db.script = [] → hasUser uid db = false →
      (check_password uid pwd db).1 = error_authorization_fail) ∧
    (db.script = [] → db.users.find? (fun x => x.user_id == uid) = some u →
      u.password ≠ pwd →
      (check_password uid pwd db).1 = error_authorization_fail) ∧
    (db.script = [] → hasUser uid db = false →
      check_token uid T now db = PRes.ok error_authorization_fail db) ∧
    (db.script = [] → db.users.find? (fun x => x.user_id == uid) = some u →
      __check_token uid u.token T now = false →
      check_token uid T now db = PRes.ok error_authorization_fail db) ∧
    (db.script = [Ev.ok, Ev.vanish uid] →
      db.users.find? (fun x => x.user_id == uid) = some u →
      u.password = pwd →
      (db.users.eraseP (fun x => x.user_id == uid)).any
        (fun x => x.user_id == uid) = false →
      (login uid pwd term now db).1 = (error_authorization_fail, TokSlot.absent)) := by
  refine ⟨?_, ?_, ?_, ?_, ?_⟩
  · intro hs h
    have hn : db.users.find? (fun x => x.user_id == uid) = none :=
      find?_none_of_any_false h
    simp [check_password, check_password_run, findUser, prim, hs, hn, catch528]
  · intro hs hu hne
    simp [check_password, check_password_run, findUser, prim, hs, hu, hne, catch528]
  · intro hs h
    have hn : db.users.find? (fun x => x.user_id == uid) = none :=
      find?_none_of_any_false h
    simp [check_token, findUser, prim, hs, hn]
  · intro hs hu hcc
    simp [check_token, findUser, prim, hs, hu, hcc]
  · intro hscr hu hp hgone
    have hcp := check_password_ok_skip db uid pwd u [Ev.vanish uid] hscr hu hp
    simp [login, login_run, hcp, updUserTokTerm, prim, removeUser, hgone]

/-- `db0` with a script that lets one driver call through and then has a
concurrent writer delete user `"u"` just before the next call. -/
def dbVan : DB := { db0 with script := [Ev.ok, Ev.vanish "u"] }

theorem auth_failures_indistinguishable_witness :
    (check_password "nobody" "p" db0).1 = error_authorization_fail ∧
    (check_password "u" "wrong" db0).1 = error_authorization_fail ∧
    check_token "nobody" tok0 0 db0 = PRes.ok error_authorization_fail db0 ∧
    check_token "u" tok0 9999 db0 = PRes.ok error_authorization_fail db0 ∧
    (login "u" "p" "t" 0 dbVan).1 = (error_authorization_fail, TokSlot.absent) :=
  ⟨(auth_failures_indistinguishable db0 "nobody" "p" "t" tok0 0
      ⟨"u", "p", 0, tok0, "t"⟩).1 rfl (by decide),
   (auth_failures_indistinguishable db0 "u" "wrong" "t" tok0 0
      ⟨"u", "p", 0, tok0, "t"⟩).2.1 rfl rfl (by decide),
   (auth_failures_indistinguishable db0 "nobody" "p" "t" tok0 0
      ⟨"u", "p", 0, tok0, "t"⟩).2.2.1 rfl (by decide),
   (auth_failures_indistinguishable db0 "u" "p" "t" tok0 9999
      ⟨"u", "p", 0, tok0, "t"⟩).2.2.2.1 rfl rfl (by decide),
   (auth_failures_indistinguishable dbVan "u" "p" "t" tok0 0
      ⟨"u", "p", 0, tok0, "t"⟩).2.2.2.2 rfl rfl rfl (by decide)⟩

/-- C9: change_password never inspects the result of its update: when the
old password checks out and the user is deleted concurrently between the
check and the write, it still returns (200, "ok"); login, logout and
unregister each return the AuthorizationFailed pair on the zero-row
update or delete in the same situation. -/
theorem change_password_ignores_update_result (db : DB)
    (uid pwd newp term : String) (T : Token) (now : Int) (u : UserDoc)
    (hscript : db.script = [Ev.ok, Ev.vanish uid])
    (hu : db.users.find? (fun x => x.user_id == uid) = some u)
    (hgone : (db.users.eraseP (fun x => x.user_id == uid)).any
      (fun x => x.user_id == uid) = false) :
    (u.password = pwd →
      (change_password uid pwd newp now db).1 = (200, "ok")) ∧
    (u.password = pwd →
      (login uid pwd term now db).1 = (error_authorization_fail, TokSlot.absent)) ∧
    (u.password = pwd →
      (unregister uid pwd db).1 = error_authorization_fail) ∧
    (__check_token uid u.token T now = true →
      (logout uid T now db).1 = error_authorization_fail) := by
  refine ⟨?_, ?_, ?_, ?_⟩
  · intro hp
    have hcp := check_password_ok_skip db uid pwd u [Ev.vanish uid] hscript hu hp
    simp [change_password, change_password_run, hcp, updUserPwdTokTerm, prim,
      removeUser, catch528]
  · intro hp
    have hcp := check_password_ok_skip db uid pwd u [Ev.vanish uid] hscript hu hp
    simp [login, login_run, hcp, updUserTokTerm, prim, removeUser, hgone]
  · intro hp
    have hcp := check_password_ok_skip db uid pwd u [Ev.vanish uid] hscript hu hp
    simp [unregister, unregister_run, hcp, deleteUser, prim, removeUser, hgone,
      catch528]
  · intro ht
    have hct := check_token_ok_skip db uid T now u [Ev.vanish uid] hscript hu ht
    simp [logout, logout_run, hct, updUserTokTerm, prim, removeUser, hgone, catch528]

theorem change_password_ignores_update_result_witness :
    (change_password "u" "p" "q" 0 dbVan).1 = (200, "ok") ∧
    (login "u" "p" "t" 1 dbVan).1 = (error_authorization_fail, TokSlot.absent) ∧
    (unregister "u" "p" dbVan).1 = error_authorization_fail ∧
    (logout "u" tok0 0 dbVan).1 = error_authorization_fail :=
  ⟨(change_password_ignores_update_result dbVan "u" "p" "q" "t" tok0 0
      ⟨"u", "p", 0, tok0, "t"⟩ rfl rfl (by decide)).1 rfl,
   (change_password_ignores_update_result dbVan "u" "p" "q" "t" tok0 1
      ⟨"u", "p", 0, tok0, "t"⟩ rfl rfl (by decide)).2.1 rfl,
   (change_password_ignores_update_result dbVan "u" "p" "q" "t" tok0 0
      ⟨"u", "p", 0, tok0, "t"⟩ rfl rfl (by decide)).2.2.1 rfl,
   (change_password_ignores_update_result dbVan "u" "p" "q" "t" tok0 0
      ⟨"u", "p", 0, tok0, "t"⟩ rfl rfl (by decide)).2.2.2 (by decide)⟩
